import Mathlib

/-!
Verification of the holidayapi-rust client library (`src/lib.rs`,
`src/requests.rs`, `src/responses.rs`) against its specification.

The Rust code is shallowly embedded: the `HolidayAPI` client, its
validators and constructors, the per-endpoint request builders with
their `HashMap<String, String>` parameter maps (modelled extensionally
as association lists with overwrite-on-insert), and the dispatch /
decode pipeline (modelled on an explicit HTTP response transcript).
External crates are modelled by their documented semantics where the
code depends on them: the `regex` crate's unanchored substring search
for `Regex::is_match`, `reqwest`'s `error_for_status` (errors exactly
on status 400–599), and the `url` crate's query serialisation.
-/

/-! ## The key regex, `[0-9a-f]{8}-[0-9a-f]{4}-[0-9a-f]{4}-[0-9a-f]{4}-[0-9a-f]{12}`

`HolidayAPI::is_valid_key` (lib.rs lines 45–55) compiles this pattern
and calls `Regex::is_match`, which reports whether the pattern matches
ANYWHERE in the haystack (it is not anchored).  We model the pattern
as a sequence of fixed-length character-class runs and the search as a
scan over all start positions. -/

/-- Character class `[0-9a-f]` of the key regex, on code points
(0x30–0x39 are the digits, 0x61–0x66 are the lowercase hex letters). -/
def isLowerHex (c : Char) : Bool :=
  (48 ≤ c.toNat && c.toNat ≤ 57) || (97 ≤ c.toNat && c.toNat ≤ 102)

/-- The literal `-` of the key regex (code point 0x2d). -/
def isDash (c : Char) : Bool := c.toNat = 45

/-- Consume exactly `n` characters satisfying `p`, returning the rest. -/
def consumeRun (p : Char → Bool) : Nat → List Char → Option (List Char)
  | 0, cs => some cs
  | _ + 1, [] => none
  | n + 1, c :: cs => if p c then consumeRun p n cs else none

/-- Consume a sequence of fixed-length character-class runs. -/
def consumeStages : List ((Char → Bool) × Nat) → List Char → Option (List Char)
  | [], cs => some cs
  | st :: sts, cs => (consumeRun st.1 st.2 cs).bind (consumeStages sts)

/-- The run structure 8-4-4-4-12 of the key regex, with the three `-`
separators, exactly as written in `is_valid_key`. -/
def uuidStages : List ((Char → Bool) × Nat) :=
  [(isLowerHex, 8), (isDash, 1), (isLowerHex, 4), (isDash, 1), (isLowerHex, 4),
   (isDash, 1), (isLowerHex, 4), (isDash, 1), (isLowerHex, 12)]

/-- Try to match the key regex at the start of `cs`; on success return
the characters following the match. -/
def consumeUuid (cs : List Char) : Option (List Char) := consumeStages uuidStages cs

/-- `cs`, in its entirety, matches the key regex. -/
def uuidFullMatch (cs : List Char) : Bool := consumeUuid cs = some []

/-- `Regex::is_match` of the key regex: the pattern matches at some
position of the haystack (the regex is unanchored). -/
def searchUuid : List Char → Bool
  | [] => (consumeUuid []).isSome
  | c :: cs => (consumeUuid (c :: cs)).isSome || searchUuid cs

/-! ## `HolidayAPI` and its validators (lib.rs) -/

/-- The error enum `HolidayAPIError` (lib.rs lines 24–29). -/
inductive HolidayAPIError where
  | invalidKeyFormat (key : String)
  | invalidOrExpiredKey (key : String)
  | invalidVersion (version : String)
deriving DecidableEq, Repr

/-- The client struct `HolidayAPI` (lib.rs lines 18–22). -/
structure HolidayAPI where
  base_url : String
  key : String
deriving DecidableEq, Repr

/-- Decidable equality of `Except` results, for evaluating the model
on concrete inputs. -/
instance {ε α : Type} [DecidableEq ε] [DecidableEq α] : DecidableEq (Except ε α) := fun a b =>
  match a, b with
  | Except.ok a, Except.ok b =>
    if h : a = b then Decidable.isTrue (by rw [h]) else
      Decidable.isFalse (by intro hc; cases hc; exact h rfl)
  | Except.error a, Except.error b =>
    if h : a = b then Decidable.isTrue (by rw [h]) else
      Decidable.isFalse (by intro hc; cases hc; exact h rfl)
  | Except.ok _, Except.error _ => Decidable.isFalse (by intro hc; cases hc)
  | Except.error _, Except.ok _ => Decidable.isFalse (by intro hc; cases hc)

/-- Rust `i32::to_string` (decimal, minus sign for negatives). -/
def i32_to_string (i : Int) : String := toString i

/-- Rust `bool::to_string`. -/
def bool_to_string (b : Bool) : String := if b then "true" else "false"

/-- `HolidayAPI::is_valid_key` (lib.rs lines 45–55): `Ok(())` when the
unanchored UUID-shape regex matches somewhere in `key`, otherwise
`Err(InvalidKeyFormat(key))`. -/
def HolidayAPI.is_valid_key (key : String) : Except HolidayAPIError Unit :=
  if searchUuid key.data then Except.ok ()
  else Except.error (HolidayAPIError.invalidKeyFormat key)

/-- `HolidayAPI::is_valid_version` (lib.rs lines 57–67): the fixed
allow-list is `[1]`. -/
def HolidayAPI.is_valid_version (version : Int) : Except HolidayAPIError Unit :=
  if [(1 : Int)].contains version then Except.ok ()
  else Except.error (HolidayAPIError.invalidVersion
    ("Invalid version: " ++ i32_to_string version ++ ", please choose: [1]"))

/-- `HolidayAPI::construct_api` (lib.rs lines 68–73). -/
def HolidayAPI.construct_api (key : String) (version : Int) : HolidayAPI :=
  { base_url := "https://holidayapi.com/v" ++ i32_to_string version ++ "/"
    key := key }

/-- `HolidayAPI::new` (lib.rs lines 89–93): validates the key (the
`?` operator propagates its error) and defaults the version to 1. -/
def HolidayAPI.new (key : String) : Except HolidayAPIError HolidayAPI :=
  match HolidayAPI.is_valid_key key with
  | Except.error e => Except.error e
  | Except.ok _ => Except.ok (HolidayAPI.construct_api key 1)

/-- `HolidayAPI::with_version` (lib.rs lines 111–116): validates the
key first, then the version, each `?` propagating its error. -/
def HolidayAPI.with_version (key : String) (version : Int) :
    Except HolidayAPIError HolidayAPI :=
  match HolidayAPI.is_valid_key key with
  | Except.error e => Except.error e
  | Except.ok _ =>
    match HolidayAPI.is_valid_version version with
    | Except.error e => Except.error e
    | Except.ok _ => Except.ok (HolidayAPI.construct_api key version)

/-! ## Parameter maps

The builders hold a `HashMap<String, String>`.  A `HashMap` is
observed only through lookup (and iteration, whose order is
unspecified), so we model it extensionally as an association list in
which `insert` overwrites the binding of an existing key in place and
otherwise appends a fresh binding. -/

/-- `HashMap::insert`: overwrite the existing binding of `k`, or add one. -/
def insertParam (k v : String) : List (String × String) → List (String × String)
  | [] => [(k, v)]
  | p :: rest => if p.1 = k then (k, v) :: rest else p :: insertParam k v rest

/-- `HashMap::get`: the value bound to `k`, if any. -/
def lookupParam : List (String × String) → String → Option String
  | [], _ => none
  | p :: rest, k => if p.1 = k then some p.2 else lookupParam rest k

/-! ## Endpoints and the dispatcher (lib.rs lines 118–138) -/

/-- The `Endpoint` enum (requests.rs lines 10–17). -/
inductive Endpoint where
  | Countries
  | Holidays
  | Languages
  | Workday
  | Workdays
deriving DecidableEq, Repr

/-- `strum_macros::Display` on `Endpoint`: the variant's name. -/
def Endpoint.toString : Endpoint → String
  | .Countries => "Countries"
  | .Holidays => "Holidays"
  | .Languages => "Languages"
  | .Workday => "Workday"
  | .Workdays => "Workdays"

/-- Rust `char::to_ascii_lowercase` on one character: ASCII uppercase
letters (code points 65–90) are shifted down by 32. -/
def asciiLowerChar (c : Char) : Char :=
  if 65 ≤ c.toNat ∧ c.toNat ≤ 90 then Char.ofNat (c.toNat + 32) else c

/-- Rust `str::to_ascii_lowercase`. -/
def toAsciiLowercase (s : String) : String := ⟨s.data.map asciiLowerChar⟩

/-- One byte of the `url` crate's `application/x-www-form-urlencoded`
serialisation (used by `Url::parse_with_params`): space becomes `+`,
bytes for `[A-Za-z0-9*\-._]` pass through, all others are
percent-encoded with uppercase hex. -/
def encodeByte (b : Nat) : String :=
  if b = 32 then "+"
  else if (48 ≤ b ∧ b ≤ 57) ∨ (65 ≤ b ∧ b ≤ 90) ∨ (97 ≤ b ∧ b ≤ 122)
      ∨ b = 42 ∨ b = 45 ∨ b = 46 ∨ b = 95 then
    String.singleton (Char.ofNat b)
  else
    "%" ++ String.singleton (Char.ofNat (if b / 16 < 10 then 48 + b / 16 else 55 + b / 16))
        ++ String.singleton (Char.ofNat (if b % 16 < 10 then 48 + b % 16 else 55 + b % 16))

/-- Form-urlencode a string, byte by byte over its UTF-8 encoding. -/
def formUrlencode (s : String) : String :=
  String.join (s.toUTF8.toList.map fun b => encodeByte b.toNat)

/-- The URL built by `HolidayAPI::request` (lib.rs lines 124–126):
`Url::join` of the base URL (which ends in `/`) with the lowercased
endpoint name, then `Url::parse_with_params` appends `?key={key}` and
each parameter pair form-urlencoded. -/
def requestUrl (api : HolidayAPI) (endpoint : Endpoint)
    (parameters : List (String × String)) : String :=
  let url := api.base_url ++ toAsciiLowercase endpoint.toString
  let url := url ++ "?key=" ++ api.key
  parameters.foldl (fun acc p => acc ++ "&" ++ formUrlencode p.1 ++ "=" ++ formUrlencode p.2) url

/-- An HTTP response transcript: the status code and the body text the
server answered with. -/
structure Response where
  status : Nat
  body : String
deriving DecidableEq, Repr

/-- The `Box<dyn Error>` failures the request/decode pipeline can
surface: a boxed `HolidayAPIError`, a `reqwest` status error carrying
the offending status code, or a `serde_json` decode error. -/
inductive BoxError where
  | api (e : HolidayAPIError)
  | status (code : Nat)
  | decodeError
deriving DecidableEq, Repr

/-- The classification in `HolidayAPI::request` (lib.rs lines
127–137): `reqwest`'s `error_for_status` errors exactly on statuses
400–599; on such an error, 401 is mapped to
`InvalidOrExpiredKey(self.key)` and every other 4xx/5xx is returned as
the boxed `reqwest` status error; otherwise the response is returned
as-is. -/
def HolidayAPI.request (api : HolidayAPI) (resp : Response) : Except BoxError Response :=
  if 400 ≤ resp.status ∧ resp.status < 600 then
    if resp.status = 401 then
      Except.error (BoxError.api (HolidayAPIError.invalidOrExpiredKey api.key))
    else Except.error (BoxError.status resp.status)
  else Except.ok resp

/-! ## Response records (responses.rs) -/

/-- `APIRequests` (responses.rs lines 3–8). -/
structure APIRequests where
  available : Nat
  used : Nat
  resets : String
deriving DecidableEq, Repr

/-- `Codes` (responses.rs lines 29–36). -/
structure Codes where
  alpha_2 : String
  alpha_3 : String
  numeric : String
deriving DecidableEq, Repr

/-- `Subdivision` (responses.rs lines 38–43). -/
structure Subdivision where
  code : String
  name : String
  languages : List String
deriving DecidableEq, Repr

/-- `Country` (responses.rs lines 19–27). -/
structure Country where
  code : String
  name : String
  languages : List String
  codes : Codes
  flag : String
  subdivisions : List Subdivision
deriving DecidableEq, Repr

/-- `CountriesResponse` (responses.rs lines 10–17). -/
structure CountriesResponse where
  requests : APIRequests
  status : Nat
  error : Option String
  warning : Option String
  countries : List Country
deriving DecidableEq, Repr

/-! ## Request builders (requests.rs)

Each Rust setter mutates `self.parameters` through `HashMap::insert`
and returns `self.to_owned()`; in the functional embedding a setter
returns the builder with the one binding inserted. -/

/-- `CountriesRequest` (requests.rs lines 19–23). -/
structure CountriesRequest where
  parameters : List (String × String)
  api : HolidayAPI
deriving DecidableEq, Repr

/-- `CountriesRequest::new` (requests.rs lines 26–31): empty parameters. -/
def CountriesRequest.new (api : HolidayAPI) : CountriesRequest :=
  { parameters := [], api := api }

/-- `CountriesRequest::country` (requests.rs lines 42–45). -/
def CountriesRequest.country (self : CountriesRequest) (country : String) : CountriesRequest :=
  { self with parameters := insertParam "country" country self.parameters }

/-- `CountriesRequest::search` (requests.rs lines 56–59). -/
def CountriesRequest.search (self : CountriesRequest) (search : String) : CountriesRequest :=
  { self with parameters := insertParam "search" search self.parameters }

/-- `CountriesRequest::public` (requests.rs lines 70–73). -/
def CountriesRequest.public (self : CountriesRequest) (pub_ : Bool) : CountriesRequest :=
  { self with parameters := insertParam "public" (bool_to_string pub_) self.parameters }

/-- `CountriesRequest::pretty` (requests.rs lines 84–87). -/
def CountriesRequest.pretty (self : CountriesRequest) (pretty : Bool) : CountriesRequest :=
  { self with parameters := insertParam "pretty" (bool_to_string pretty) self.parameters }

/-- `CountriesRequest::get_raw` (requests.rs lines 90–97): dispatch,
then return the body text of a successful response. -/
def CountriesRequest.get_raw (self : CountriesRequest) (resp : Response) :
    Except BoxError String :=
  (self.api.request resp).map Response.body

/-- `CountriesRequest::get_full` (requests.rs lines 100–102):
`serde_json::from_str` applied to `get_raw`.  The decoder is the
external `serde_json` crate, abstracted as an arbitrary function
`dec`; a `None` result models a body that is not valid JSON for the
`CountriesResponse` envelope and is surfaced as the boxed serde
error. -/
def CountriesRequest.get_full (dec : String → Option CountriesResponse)
    (self : CountriesRequest) (resp : Response) : Except BoxError CountriesResponse :=
  match self.get_raw resp with
  | Except.ok raw =>
    match dec raw with
    | some v => Except.ok v
    | none => Except.error BoxError.decodeError
  | Except.error e => Except.error e

/-- `HolidaysRequest` (requests.rs lines 110–114). -/
structure HolidaysRequest where
  parameters : List (String × String)
  api : HolidayAPI
deriving DecidableEq, Repr

/-- `HolidaysRequest::new` (requests.rs lines 117–125): inserts the
mandatory `country` and `year` parameters. -/
def HolidaysRequest.new (api : HolidayAPI) (country : String) (year : Int) : HolidaysRequest :=
  { parameters := insertParam "year" (i32_to_string year) (insertParam "country" country [])
    api := api }

/-- `HolidaysRequest::month` (requests.rs lines 136–139). -/
def HolidaysRequest.month (self : HolidaysRequest) (month : Int) : HolidaysRequest :=
  { self with parameters := insertParam "month" (i32_to_string month) self.parameters }

/-- `HolidaysRequest::day` (requests.rs lines 150–153). -/
def HolidaysRequest.day (self : HolidaysRequest) (day : Int) : HolidaysRequest :=
  { self with parameters := insertParam "day" (i32_to_string day) self.parameters }

/-- `HolidaysRequest::public` (requests.rs lines 156–159). -/
def HolidaysRequest.public (self : HolidaysRequest) (pub_ : Bool) : HolidaysRequest :=
  { self with parameters := insertParam "public" (bool_to_string pub_) self.parameters }

/-- `HolidaysRequest::subdivisions` (requests.rs lines 162–166). -/
def HolidaysRequest.subdivisions (self : HolidaysRequest) (subdivisions : Bool) : HolidaysRequest :=
  { self with parameters := insertParam "subdivisions" (bool_to_string subdivisions) self.parameters }

/-- `HolidaysRequest::search` (requests.rs lines 176–179). -/
def HolidaysRequest.search (self : HolidaysRequest) (search : String) : HolidaysRequest :=
  { self with parameters := insertParam "search" search self.parameters }

/-- `HolidaysRequest::language` (requests.rs lines 191–195). -/
def HolidaysRequest.language (self : HolidaysRequest) (language : String) : HolidaysRequest :=
  { self with parameters := insertParam "language" language self.parameters }

/-- `HolidaysRequest::previous` (requests.rs lines 200–204). -/
def HolidaysRequest.previous (self : HolidaysRequest) (previous : Bool) : HolidaysRequest :=
  { self with parameters := insertParam "previous" (bool_to_string previous) self.parameters }

/-- `HolidaysRequest::upcoming` (requests.rs lines 209–213). -/
def HolidaysRequest.upcoming (self : HolidaysRequest) (upcoming : Bool) : HolidaysRequest :=
  { self with parameters := insertParam "upcoming" (bool_to_string upcoming) self.parameters }

/-- `HolidaysRequest::pretty` (requests.rs lines 216–219). -/
def HolidaysRequest.pretty (self : HolidaysRequest) (pretty : Bool) : HolidaysRequest :=
  { self with parameters := insertParam "pretty" (bool_to_string pretty) self.parameters }

/-- `WorkdayRequest` (requests.rs lines 242–246). -/
structure WorkdayRequest where
  parameters : List (String × String)
  api : HolidayAPI
deriving DecidableEq, Repr

/-- `WorkdayRequest::new` (requests.rs lines 249–260): the start date
is inserted under the key `"year"`, the day offset under `"days"`. -/
def WorkdayRequest.new (api : HolidayAPI) (country start : String) (days : Int) : WorkdayRequest :=
  { parameters :=
      insertParam "days" (i32_to_string days)
        (insertParam "year" start (insertParam "country" country []))
    api := api }

/-- `WorkdayRequest::pretty` (requests.rs lines 263–266). -/
def WorkdayRequest.pretty (self : WorkdayRequest) (pretty : Bool) : WorkdayRequest :=
  { self with parameters := insertParam "pretty" (bool_to_string pretty) self.parameters }

/-- `WorkdaysRequest` (requests.rs lines 290–294). -/
structure WorkdaysRequest where
  parameters : List (String × String)
  api : HolidayAPI
deriving DecidableEq, Repr

/-- `WorkdaysRequest::new` (requests.rs lines 297–308): the start date
is inserted under the key `"year"`, and the third argument (named
`days` in the source, holding the end date) under `"end"`. -/
def WorkdaysRequest.new (api : HolidayAPI) (country start days : String) : WorkdaysRequest :=
  { parameters :=
      insertParam "end" days (insertParam "year" start (insertParam "country" country []))
    api := api }

/-- `WorkdaysRequest::pretty` (requests.rs lines 311–314). -/
def WorkdaysRequest.pretty (self : WorkdaysRequest) (pretty : Bool) : WorkdaysRequest :=
  { self with parameters := insertParam "pretty" (bool_to_string pretty) self.parameters }

/-- `LanguagesRequest` (requests.rs lines 338–342). -/
structure LanguagesRequest where
  parameters : List (String × String)
  api : HolidayAPI
deriving DecidableEq, Repr

/-- `LanguagesRequest::new` (requests.rs lines 345–350): empty parameters. -/
def LanguagesRequest.new (api : HolidayAPI) : LanguagesRequest :=
  { parameters := [], api := api }

/-- `LanguagesRequest::language` (requests.rs lines 360–363). -/
def LanguagesRequest.language (self : LanguagesRequest) (language : String) : LanguagesRequest :=
  { self with parameters := insertParam "language" language self.parameters }

/-- `LanguagesRequest::search` (requests.rs lines 373–376). -/
def LanguagesRequest.search (self : LanguagesRequest) (search : String) : LanguagesRequest :=
  { self with parameters := insertParam "search" search self.parameters }

/-- `LanguagesRequest::pretty` (requests.rs lines 379–382). -/
def LanguagesRequest.pretty (self : LanguagesRequest) (pretty : Bool) : LanguagesRequest :=
  { self with parameters := insertParam "pretty" (bool_to_string pretty) self.parameters }

/-! ## Lemmas about the regex model -/

theorem consumeRun_sound (p : Char → Bool) :
    ∀ (n : Nat) (cs rest : List Char), consumeRun p n cs = some rest →
      ∃ pre, cs = pre ++ rest ∧ pre.length = n ∧ ∀ c ∈ pre, p c = true := by
  intro n
  induction n with
  | zero =>
    intro cs rest h
    simp only [consumeRun, Option.some.injEq] at h
    subst h
    exact ⟨[], rfl, rfl, by simp⟩
  | succ n ih =>
    intro cs rest h
    cases cs with
    | nil => simp [consumeRun] at h
    | cons c cs =>
      rw [consumeRun] at h
      cases hpc : p c with
      | false => simp [hpc] at h
      | true =>
        rw [if_pos hpc] at h
        obtain ⟨pre, heq, hlen, hall⟩ := ih cs rest h
        refine ⟨c :: pre, by simp [heq], by simp [hlen], ?_⟩
        intro d hd
        rcases List.mem_cons.mp hd with rfl | hd
        · exact hpc
        · exact hall d hd

theorem consumeRun_complete (p : Char → Bool) :
    ∀ (pre rest : List Char), (∀ c ∈ pre, p c = true) →
      consumeRun p pre.length (pre ++ rest) = some rest := by
  intro pre
  induction pre with
  | nil => intro rest _; rfl
  | cons c pre ih =>
    intro rest hall
    have hc : p c = true := hall c (by simp)
    simp only [List.length_cons, List.cons_append, consumeRun, if_pos hc]
    exact ih rest fun d hd => hall d (by simp [hd])

theorem consumeStages_sound :
    ∀ (sts : List ((Char → Bool) × Nat)) (cs rest : List Char),
      consumeStages sts cs = some rest →
      ∃ pre, cs = pre ++ rest ∧ consumeStages sts pre = some [] ∧
        pre.length = (sts.map Prod.snd).sum ∧ ∀ c ∈ pre, ∃ st ∈ sts, st.1 c = true := by
  intro sts
  induction sts with
  | nil =>
    intro cs rest h
    simp only [consumeStages, Option.some.injEq] at h
    subst h
    exact ⟨[], rfl, rfl, rfl, by simp⟩
  | cons st sts ih =>
    intro cs rest h
    rw [consumeStages] at h
    obtain ⟨mid, hmid, hrest⟩ := Option.bind_eq_some.mp h
    obtain ⟨pre1, heq1, hlen1, hall1⟩ := consumeRun_sound st.1 st.2 cs mid hmid
    obtain ⟨pre2, heq2, hfull2, hlen2, hall2⟩ := ih mid rest hrest
    refine ⟨pre1 ++ pre2, ?_, ?_, ?_, ?_⟩
    · rw [heq1, heq2, List.append_assoc]
    · rw [consumeStages]
      have hrun : consumeRun st.1 st.2 (pre1 ++ pre2) = some pre2 := by
        rw [← hlen1]
        exact consumeRun_complete st.1 pre1 pre2 hall1
      rw [hrun]
      simpa using hfull2
    · simp [hlen1, hlen2]
    · intro c hc
      rcases List.mem_append.mp hc with hc | hc
      · exact ⟨st, by simp, hall1 c hc⟩
      · obtain ⟨st2, hst2, hp⟩ := hall2 c hc
        exact ⟨st2, by simp [hst2], hp⟩

theorem consumeStages_extend :
    ∀ (sts : List ((Char → Bool) × Nat)) (pre rest : List Char),
      consumeStages sts pre = some [] → consumeStages sts (pre ++ rest) = some rest := by
  intro sts
  induction sts with
  | nil =>
    intro pre rest h
    simp only [consumeStages, Option.some.injEq] at h
    subst h
    rfl
  | cons st sts ih =>
    intro pre rest h
    rw [consumeStages] at h
    obtain ⟨mid, hmid, hnil⟩ := Option.bind_eq_some.mp h
    obtain ⟨pre1, heq1, hlen1, hall1⟩ := consumeRun_sound st.1 st.2 pre mid hmid
    rw [consumeStages]
    have hrun : consumeRun st.1 st.2 (pre ++ rest) = some (mid ++ rest) := by
      rw [heq1, List.append_assoc, ← hlen1]
      exact consumeRun_complete st.1 pre1 (mid ++ rest) hall1
    rw [hrun]
    simpa using ih mid rest hnil

theorem searchUuid_iff (cs : List Char) :
    searchUuid cs = true ↔
      ∃ pre mid post, cs = pre ++ mid ++ post ∧ uuidFullMatch mid = true := by
  induction cs with
  | nil =>
    constructor
    · intro h
      exact absurd h (by decide)
    · rintro ⟨pre, mid, post, heq, hfm⟩
      have h1 := List.append_eq_nil.mp heq.symm
      have h2 := List.append_eq_nil.mp h1.1
      rw [h2.2] at hfm
      exact absurd hfm (by decide)
  | cons c cs ih =>
    rw [searchUuid, Bool.or_eq_true]
    constructor
    · rintro (h | h)
      · obtain ⟨rest, hrest⟩ := Option.isSome_iff_exists.mp h
        obtain ⟨pre, heq, hfull, -, -⟩ := consumeStages_sound uuidStages _ _ hrest
        exact ⟨[], pre, rest, by simpa using heq, decide_eq_true hfull⟩
      · obtain ⟨pre, mid, post, heq, hfm⟩ := ih.mp h
        exact ⟨c :: pre, mid, post, by simp [heq], hfm⟩
    · rintro ⟨pre, mid, post, heq, hfm⟩
      cases pre with
      | nil =>
        left
        simp only [List.nil_append] at heq
        have hmid : consumeStages uuidStages mid = some [] := of_decide_eq_true hfm
        have : consumeUuid (c :: cs) = some post := by
          rw [heq]
          exact consumeStages_extend uuidStages mid post hmid
        simp [this]
      | cons p pre =>
        right
        simp only [List.cons_append, List.cons.injEq] at heq
        exact ih.mpr ⟨pre, mid, post, heq.2, hfm⟩

/-! ## Claim C1 -/

/-- Claim C1 counterexample: the string
`"z00000000-0000-0000-0000-000000000000"` does not match the UUID
shape (37 characters, leading non-hex `z`), yet `is_valid_key`
returns `Ok` because the regex is unanchored and a matching substring
starts at position 1. -/
theorem claim_C1_counterexample :
    uuidFullMatch "z00000000-0000-0000-0000-000000000000".data = false ∧
    HolidayAPI.is_valid_key "z00000000-0000-0000-0000-000000000000" = Except.ok () := by
  constructor
  · decide
  · decide

/-- Claim C1 (amended): `is_valid_key` returns `Ok` exactly when some
SUBSTRING of the key matches the UUID-shape pattern (the regex is
unanchored); it returns `Err(InvalidKeyFormat)` exactly when no
substring matches.  In particular every string that fully matches the
shape is accepted, but so are strings of the wrong overall length that
merely contain a matching run. -/
theorem claim_C1 (s : String) :
    (HolidayAPI.is_valid_key s = Except.ok () ↔
      ∃ pre mid post, s.data = pre ++ mid ++ post ∧ uuidFullMatch mid = true) ∧
    (HolidayAPI.is_valid_key s = Except.error (HolidayAPIError.invalidKeyFormat s) ↔
      ¬ ∃ pre mid post, s.data = pre ++ mid ++ post ∧ uuidFullMatch mid = true) := by
  by_cases hs : searchUuid s.data
  · have hex := (searchUuid_iff s.data).mp hs
    rw [HolidayAPI.is_valid_key, if_pos hs]
    exact ⟨⟨fun _ => hex, fun _ => rfl⟩,
      ⟨fun hc => Except.noConfusion hc, fun hn => absurd hex hn⟩⟩
  · have hnex : ¬ ∃ pre mid post, s.data = pre ++ mid ++ post ∧ uuidFullMatch mid = true :=
      fun hex => hs ((searchUuid_iff s.data).mpr hex)
    rw [HolidayAPI.is_valid_key, if_neg hs]
    exact ⟨⟨fun hc => Except.noConfusion hc, fun hex => absurd hex hnex⟩,
      ⟨fun _ => hnex, fun _ => rfl⟩⟩

/-! ## Claim C8 -/

/-- Claim C8 counterexample: the uppercase-hex UUID-shaped string from
the claim is REJECTED by `is_valid_key` — the regex character class is
`[0-9a-f]`, lowercase only, and `Regex::new` is called without a
case-insensitivity flag. -/
theorem claim_C8_counterexample :
    HolidayAPI.is_valid_key "ABCDEF00-0000-0000-0000-000000000000" =
      Except.error (HolidayAPIError.invalidKeyFormat "ABCDEF00-0000-0000-0000-000000000000") := by
  decide

/-- Claim C8 (amended): `is_valid_key` is case-SENSITIVE.  Any
36-character string containing an uppercase ASCII letter (code points
65–90) — such as the claim's example — returns
`Err(InvalidKeyFormat)`, since the only window wide enough for the
36-character pattern is the whole string and the pattern admits only
lowercase hex digits and dashes. -/
theorem claim_C8 (s : String) (hlen : s.data.length = 36)
    (hup : ∃ c ∈ s.data, 65 ≤ c.toNat ∧ c.toNat ≤ 90) :
    HolidayAPI.is_valid_key s = Except.error (HolidayAPIError.invalidKeyFormat s) := by
  have hfalse : ¬ searchUuid s.data = true := by
    intro hs
    obtain ⟨pre, mid, post, heq, hfm⟩ := (searchUuid_iff s.data).mp hs
    have hmid : consumeStages uuidStages mid = some [] := of_decide_eq_true hfm
    obtain ⟨pre2, heq2, -, hlen2, hall2⟩ := consumeStages_sound uuidStages mid [] hmid
    rw [List.append_nil] at heq2
    subst heq2
    have hlen36 : mid.length = 36 := by rw [hlen2]; rfl
    have hl := congrArg List.length heq
    simp only [List.length_append] at hl
    have hpre : pre.length = 0 := by omega
    have hpost : post.length = 0 := by omega
    obtain ⟨c, hcmem, hc65, hc90⟩ := hup
    have hcmid : c ∈ mid := by
      rw [heq] at hcmem
      rcases List.mem_append.mp hcmem with h1 | h1
      · rcases List.mem_append.mp h1 with h2 | h2
        · rw [List.eq_nil_of_length_eq_zero hpre] at h2
          exact absurd h2 (List.not_mem_nil c)
        · exact h2
      · rw [List.eq_nil_of_length_eq_zero hpost] at h1
        exact absurd h1 (List.not_mem_nil c)
    obtain ⟨st, hst, hpc⟩ := hall2 c hcmid
    have hbad : isLowerHex c = true ∨ isDash c = true := by
      simp only [uuidStages, List.mem_cons, List.not_mem_nil, or_false] at hst
      rcases hst with rfl | rfl | rfl | rfl | rfl | rfl | rfl | rfl | rfl
      all_goals first | exact Or.inl hpc | exact Or.inr hpc
    rcases hbad with h | h
    · simp only [isLowerHex, Bool.or_eq_true, Bool.and_eq_true, decide_eq_true_eq] at h
      omega
    · simp only [isDash, decide_eq_true_eq] at h
      omega
  rw [HolidayAPI.is_valid_key, if_neg hfalse]

/-- Claim C8 amended-theorem witness at the claim's own example. -/
theorem claim_C8_witness :
    HolidayAPI.is_valid_key "ABCDEF00-0000-0000-0000-000000000001" =
      Except.error (HolidayAPIError.invalidKeyFormat "ABCDEF00-0000-0000-0000-000000000001") :=
  claim_C8 "ABCDEF00-0000-0000-0000-000000000001" (by decide) (by decide)

/-! ## Claim C2 -/

/-- Claim C2 counterexample: status 304 is not a 2xx status, yet the
dispatcher returns it as `Ok` rather than as a generic transport
error, because `reqwest::Response::error_for_status` only errors on
statuses 400–599. -/
theorem claim_C2_counterexample :
    HolidayAPI.request { base_url := "https://holidayapi.com/v1/", key := "k" } ⟨304, "body"⟩ =
      Except.ok ⟨304, "body"⟩ ∧ ¬ (200 ≤ 304 ∧ 304 < 300) := by
  constructor
  · decide
  · decide

/-- Claim C2 (amended): the dispatcher returns every response whose
status lies outside 400–599 (which includes all 2xx responses) as `Ok`
with the body as-is — an envelope whose `error` field is populated is
still `Ok` at this layer; a 401 response as `InvalidOrExpiredKey`; and
every OTHER 4xx/5xx status as a generic transport error.  Non-2xx
statuses outside 400–599 (1xx/3xx, e.g. 304) are NOT turned into
errors. -/
theorem claim_C2 (api : HolidayAPI) (resp : Response) :
    (resp.status < 400 ∨ 600 ≤ resp.status → api.request resp = Except.ok resp) ∧
    (resp.status = 401 →
      api.request resp =
        Except.error (BoxError.api (HolidayAPIError.invalidOrExpiredKey api.key))) ∧
    (400 ≤ resp.status → resp.status < 600 → resp.status ≠ 401 →
      api.request resp = Except.error (BoxError.status resp.status)) := by
  refine ⟨?_, ?_, ?_⟩
  · intro h
    rw [HolidayAPI.request, if_neg (by omega)]
  · intro h
    rw [HolidayAPI.request, if_pos (by omega), if_pos h]
  · intro h1 h2 h3
    rw [HolidayAPI.request, if_pos ⟨h1, h2⟩, if_neg h3]

/-- Claim C2 amended-theorem witness: a 401 response surfaces
`InvalidOrExpiredKey` carrying the client's key. -/
theorem claim_C2_witness :
    HolidayAPI.request { base_url := "https://holidayapi.com/v1/", key := "k" } ⟨401, "x"⟩ =
      Except.error (BoxError.api (HolidayAPIError.invalidOrExpiredKey "k")) :=
  (claim_C2 { base_url := "https://holidayapi.com/v1/", key := "k" } ⟨401, "x"⟩).2.1 rfl

/-! ## Claim C3 -/

/-- Claim C3 counterexample: for an invalid key, `with_version(key, 2)`
fails with `InvalidKeyFormat`, not `InvalidVersion` — the key is
validated before the version — so the claim's "for any key" is wrong. -/
theorem claim_C3_counterexample :
    HolidayAPI.with_version "invalid-key-format" 2 =
      Except.error (HolidayAPIError.invalidKeyFormat "invalid-key-format") ∧
    HolidayAPI.with_version "invalid-key-format" 2 ≠
      Except.error (HolidayAPIError.invalidVersion "Invalid version: 2, please choose: [1]") := by
  constructor
  · decide
  · decide

/-- Claim C3 (amended): for every integer `v` outside `{1}` and every
key that PASSES `is_valid_key`, `with_version(key, v)` fails with
`InvalidVersion` (for a key failing `is_valid_key` the key error takes
precedence); for version 1 with a valid key construction succeeds with
base_url `https://holidayapi.com/v1/`, and
`new("00000000-0000-0000-0000-000000000000")`, which defaults the
version to 1, does too. -/
theorem claim_C3 :
    (∀ (key : String) (v : Int), HolidayAPI.is_valid_key key = Except.ok () → v ≠ 1 →
      HolidayAPI.with_version key v =
        Except.error (HolidayAPIError.invalidVersion
          ("Invalid version: " ++ i32_to_string v ++ ", please choose: [1]"))) ∧
    (∀ key : String, HolidayAPI.is_valid_key key = Except.ok () →
      HolidayAPI.with_version key 1 =
        Except.ok { base_url := "https://holidayapi.com/v1/", key := key }) ∧
    HolidayAPI.new "00000000-0000-0000-0000-000000000000" =
      Except.ok { base_url := "https://holidayapi.com/v1/"
                  key := "00000000-0000-0000-0000-000000000000" } := by
  have hbase : ∀ key : String, HolidayAPI.construct_api key 1 =
      { base_url := "https://holidayapi.com/v1/", key := key } := by
    intro key
    have h : "https://holidayapi.com/v" ++ i32_to_string 1 ++ "/" =
        "https://holidayapi.com/v1/" := by decide
    rw [HolidayAPI.construct_api, h]
  refine ⟨?_, ?_, ?_⟩
  · intro key v hk hv
    have hc : ([(1 : Int)].contains v) = false := by
      simp only [List.contains_cons, List.contains_nil, Bool.or_false, beq_iff_eq]
      exact decide_eq_false fun h => hv h
    rw [HolidayAPI.with_version, hk, HolidayAPI.is_valid_version, hc]
    simp
  · intro key hk
    rw [HolidayAPI.with_version, hk, HolidayAPI.is_valid_version]
    rw [show ([(1 : Int)].contains 1) = true from by decide]
    simp [hbase]
  · rw [HolidayAPI.new,
      show HolidayAPI.is_valid_key "00000000-0000-0000-0000-000000000000" = Except.ok ()
        from by decide, hbase]

/-- Claim C3 amended-theorem witness: a valid key with version 2 is
rejected with `InvalidVersion`. -/
theorem claim_C3_witness :
    HolidayAPI.with_version "00000000-0000-0000-0000-000000000000" 2 =
      Except.error (HolidayAPIError.invalidVersion "Invalid version: 2, please choose: [1]") :=
  claim_C3.1 "00000000-0000-0000-0000-000000000000" 2 (by decide) (by decide)

/-! ## Claim C4 -/

/-- The query-parameter suffix appended after `?key={key}`: one
`&name=value` segment per parameter, form-urlencoded. -/
def encodeParams : List (String × String) → String
  | [] => ""
  | p :: ps => "&" ++ formUrlencode p.1 ++ "=" ++ formUrlencode p.2 ++ encodeParams ps

theorem str_append_assoc (a b c : String) : a ++ b ++ c = a ++ (b ++ c) := by
  apply String.ext
  simp only [String.data_append, List.append_assoc]

theorem requestUrl_foldl (ps : List (String × String)) (acc : String) :
    ps.foldl (fun acc p => acc ++ "&" ++ formUrlencode p.1 ++ "=" ++ formUrlencode p.2) acc =
      acc ++ encodeParams ps := by
  induction ps generalizing acc with
  | nil => rw [List.foldl_nil, encodeParams, String.append_empty]
  | cons p ps ih =>
    rw [List.foldl_cons, ih, encodeParams]
    simp only [str_append_assoc]

/-- Claim C4 (confirmed): for every client, endpoint and parameter
list, the dispatcher's URL is
`{base_url}{lowercase endpoint name}?key={key}` followed by the
form-urlencoded parameters; and a `CountriesRequest` with no optional
parameters set yields exactly `{base_url}countries?key={key}`, i.e. a
query string containing only `key=<key>`. -/
theorem claim_C4 :
    (∀ (api : HolidayAPI) (ep : Endpoint) (ps : List (String × String)),
      requestUrl api ep ps =
        api.base_url ++ toAsciiLowercase ep.toString ++ "?key=" ++ api.key ++ encodeParams ps) ∧
    (∀ api : HolidayAPI,
      requestUrl api Endpoint.Countries (CountriesRequest.new api).parameters =
        api.base_url ++ "countries?key=" ++ api.key) := by
  have hgen : ∀ (api : HolidayAPI) (ep : Endpoint) (ps : List (String × String)),
      requestUrl api ep ps =
        api.base_url ++ toAsciiLowercase ep.toString ++ "?key=" ++ api.key ++ encodeParams ps := by
    intro api ep ps
    rw [requestUrl]
    exact requestUrl_foldl ps _
  refine ⟨hgen, ?_⟩
  intro api
  rw [hgen api Endpoint.Countries (CountriesRequest.new api).parameters]
  rw [show (CountriesRequest.new api).parameters = [] from rfl, encodeParams,
    String.append_empty]
  rw [show toAsciiLowercase Endpoint.Countries.toString = "countries" from by decide]
  rw [str_append_assoc api.base_url "countries" "?key="]
  rw [show ("countries" ++ "?key=" : String) = "countries?key=" from by decide]

/-! ## Claims C5 and C6: the setter frame property -/

/-- The extensional effect of `HashMap::insert`: the inserted key now
maps to the new value, every other key is untouched. -/
theorem lookupParam_insertParam (m : List (String × String)) (k v k' : String) :
    lookupParam (insertParam k v m) k' = if k' = k then some v else lookupParam m k' := by
  induction m with
  | nil =>
    simp only [insertParam, lookupParam]
    by_cases h : k' = k
    · rw [if_pos h.symm, if_pos h]
    · rw [if_neg (fun hc => h hc.symm), if_neg h]
  | cons p m ih =>
    by_cases hp : p.1 = k
    · simp only [insertParam, if_pos hp, lookupParam]
      by_cases h : k' = k
      · rw [if_pos h.symm, if_pos h]
      · rw [if_neg (fun hc => h hc.symm), if_neg h,
          if_neg (fun hc => h (hp.symm.trans hc).symm)]
    · simp only [insertParam, if_neg hp, lookupParam]
      by_cases hq : p.1 = k'
      · rw [if_pos hq, if_neg (fun hc : k' = k => hp (hq.trans hc)), if_pos hq]
      · rw [if_neg hq, ih]
        by_cases h : k' = k
        · rw [if_pos h, if_pos h]
        · rw [if_neg h, if_neg h, if_neg hq]

/-- Claim C5 (confirmed): every setter of every request builder yields
a builder whose parameter mapping is the previous one with exactly the
setter's named key bound to the string-encoded argument, and leaves
the embedded client handle untouched; and (final conjunct) inserting a
binding overwrites that one key and leaves the lookup of every other
key unchanged. -/
theorem claim_C5 :
    (∀ (b : CountriesRequest) (x : String),
      (b.country x).parameters = insertParam "country" x b.parameters ∧
        (b.country x).api = b.api) ∧
    (∀ (b : CountriesRequest) (x : String),
      (b.search x).parameters = insertParam "search" x b.parameters ∧
        (b.search x).api = b.api) ∧
    (∀ (b : CountriesRequest) (x : Bool),
      (b.public x).parameters = insertParam "public" (bool_to_string x) b.parameters ∧
        (b.public x).api = b.api) ∧
    (∀ (b : CountriesRequest) (x : Bool),
      (b.pretty x).parameters = insertParam "pretty" (bool_to_string x) b.parameters ∧
        (b.pretty x).api = b.api) ∧
    (∀ (b : HolidaysRequest) (x : Int),
      (b.month x).parameters = insertParam "month" (i32_to_string x) b.parameters ∧
        (b.month x).api = b.api) ∧
    (∀ (b : HolidaysRequest) (x : Int),
      (b.day x).parameters = insertParam "day" (i32_to_string x) b.parameters ∧
        (b.day x).api = b.api) ∧
    (∀ (b : HolidaysRequest) (x : Bool),
      (b.public x).parameters = insertParam "public" (bool_to_string x) b.parameters ∧
        (b.public x).api = b.api) ∧
    (∀ (b : HolidaysRequest) (x : Bool),
      (b.subdivisions x).parameters =
          insertParam "subdivisions" (bool_to_string x) b.parameters ∧
        (b.subdivisions x).api = b.api) ∧
    (∀ (b : HolidaysRequest) (x : String),
      (b.search x).parameters = insertParam "search" x b.parameters ∧
        (b.search x).api = b.api) ∧
    (∀ (b : HolidaysRequest) (x : String),
      (b.language x).parameters = insertParam "language" x b.parameters ∧
        (b.language x).api = b.api) ∧
    (∀ (b : HolidaysRequest) (x : Bool),
      (b.previous x).parameters = insertParam "previous" (bool_to_string x) b.parameters ∧
        (b.previous x).api = b.api) ∧
    (∀ (b : HolidaysRequest) (x : Bool),
      (b.upcoming x).parameters = insertParam "upcoming" (bool_to_string x) b.parameters ∧
        (b.upcoming x).api = b.api) ∧
    (∀ (b : HolidaysRequest) (x : Bool),
      (b.pretty x).parameters = insertParam "pretty" (bool_to_string x) b.parameters ∧
        (b.pretty x).api = b.api) ∧
    (∀ (b : WorkdayRequest) (x : Bool),
      (b.pretty x).parameters = insertParam "pretty" (bool_to_string x) b.parameters ∧
        (b.pretty x).api = b.api) ∧
    (∀ (b : WorkdaysRequest) (x : Bool),
      (b.pretty x).parameters = insertParam "pretty" (bool_to_string x) b.parameters ∧
        (b.pretty x).api = b.api) ∧
    (∀ (b : LanguagesRequest) (x : String),
      (b.language x).parameters = insertParam "language" x b.parameters ∧
        (b.language x).api = b.api) ∧
    (∀ (b : LanguagesRequest) (x : String),
      (b.search x).parameters = insertParam "search" x b.parameters ∧
        (b.search x).api = b.api) ∧
    (∀ (b : LanguagesRequest) (x : Bool),
      (b.pretty x).parameters = insertParam "pretty" (bool_to_string x) b.parameters ∧
        (b.pretty x).api = b.api) ∧
    (∀ (m : List (String × String)) (k v k' : String),
      lookupParam (insertParam k v m) k' = if k' = k then some v else lookupParam m k') :=
  ⟨fun _ _ => ⟨rfl, rfl⟩, fun _ _ => ⟨rfl, rfl⟩, fun _ _ => ⟨rfl, rfl⟩,
    fun _ _ => ⟨rfl, rfl⟩, fun _ _ => ⟨rfl, rfl⟩, fun _ _ => ⟨rfl, rfl⟩,
    fun _ _ => ⟨rfl, rfl⟩, fun _ _ => ⟨rfl, rfl⟩, fun _ _ => ⟨rfl, rfl⟩,
    fun _ _ => ⟨rfl, rfl⟩, fun _ _ => ⟨rfl, rfl⟩, fun _ _ => ⟨rfl, rfl⟩,
    fun _ _ => ⟨rfl, rfl⟩, fun _ _ => ⟨rfl, rfl⟩, fun _ _ => ⟨rfl, rfl⟩,
    fun _ _ => ⟨rfl, rfl⟩, fun _ _ => ⟨rfl, rfl⟩, fun _ _ => ⟨rfl, rfl⟩,
    lookupParam_insertParam⟩

/-- Claim C6 (confirmed): inserting bindings for two distinct keys
commutes up to mapping (lookup) equality, and in particular
`public(true)` then `pretty(true)` on a `CountriesRequest` yields the
same parameter mapping as the reverse order. -/
theorem claim_C6 :
    (∀ (m : List (String × String)) (k1 v1 k2 v2 k : String), k1 ≠ k2 →
      lookupParam (insertParam k2 v2 (insertParam k1 v1 m)) k =
        lookupParam (insertParam k1 v1 (insertParam k2 v2 m)) k) ∧
    (∀ (b : CountriesRequest) (k : String),
      lookupParam ((b.public true).pretty true).parameters k =
        lookupParam ((b.pretty true).public true).parameters k) := by
  have hgen : ∀ (m : List (String × String)) (k1 v1 k2 v2 k : String), k1 ≠ k2 →
      lookupParam (insertParam k2 v2 (insertParam k1 v1 m)) k =
        lookupParam (insertParam k1 v1 (insertParam k2 v2 m)) k := by
    intro m k1 v1 k2 v2 k hne
    rw [lookupParam_insertParam, lookupParam_insertParam,
      lookupParam_insertParam, lookupParam_insertParam]
    by_cases h1 : k = k1
    · by_cases h2 : k = k2
      · exact absurd (h1.symm.trans h2) hne
      · rw [if_neg h2, if_pos h1, if_pos h1]
    · by_cases h2 : k = k2
      · rw [if_pos h2, if_neg h1, if_pos h2]
      · rw [if_neg h2, if_neg h1, if_neg h1, if_neg h2]
  refine ⟨hgen, ?_⟩
  intro b k
  exact hgen b.parameters "public" (bool_to_string true) "pretty" (bool_to_string true) k
    (by decide)

/-- Claim C6 witness: the general commutation conjunct applied at
concrete distinct keys. -/
theorem claim_C6_witness :
    lookupParam (insertParam "pretty" "1" (insertParam "public" "0" [])) "public" =
      lookupParam (insertParam "public" "0" (insertParam "pretty" "1" [])) "public" :=
  claim_C6.1 [] "public" "0" "pretty" "1" "public" (by decide)

/-! ## Claim C7 -/

/-- Claim C7 (confirmed): on a 2xx response whose body the envelope
decoder rejects, `get_full` fails with the decode error while
`get_raw` on the same response succeeds and returns the body text
unchanged.  The `serde_json` decoder is external to this repository
and is quantified over: the property is about the pipeline, and holds
for every decoder. -/
theorem claim_C7 (dec : String → Option CountriesResponse) (req : CountriesRequest)
    (resp : Response) (h2 : 200 ≤ resp.status) (h3 : resp.status < 300)
    (hdec : dec resp.body = none) :
    CountriesRequest.get_full dec req resp = Except.error BoxError.decodeError ∧
    CountriesRequest.get_raw req resp = Except.ok resp.body := by
  have hraw : req.get_raw resp = Except.ok resp.body := by
    rw [CountriesRequest.get_raw, HolidayAPI.request, if_neg (by omega)]
    rfl
  refine ⟨?_, hraw⟩
  simp only [CountriesRequest.get_full, hraw, hdec]

/-- Claim C7 witness: a decoder rejecting the body `"not json"` of a
200 response. -/
theorem claim_C7_witness :
    CountriesRequest.get_full (fun _ => none)
        (CountriesRequest.new (HolidayAPI.construct_api "k" 1)) ⟨200, "not json"⟩ =
      Except.error BoxError.decodeError ∧
    CountriesRequest.get_raw (CountriesRequest.new (HolidayAPI.construct_api "k" 1))
        ⟨200, "not json"⟩ =
      Except.ok "not json" :=
  claim_C7 (fun _ => none) (CountriesRequest.new (HolidayAPI.construct_api "k" 1))
    ⟨200, "not json"⟩ (by decide) (by decide) rfl

/-! ## Claim C9 -/

/-- Claim C9 (confirmed): the cross-parameter contracts are not
enforced locally.  Setting both `previous(true)` and `upcoming(true)`
on any `HolidaysRequest` succeeds (the setters are total) and the
resulting mapping binds both keys to `"true"`; and `day(d)` on a fresh
`HolidaysRequest` succeeds without `month` ever having been set,
binding `day` while `month` stays absent. -/
theorem claim_C9 :
    (∀ (h : HolidaysRequest),
      lookupParam ((h.previous true).upcoming true).parameters "previous" = some "true" ∧
      lookupParam ((h.previous true).upcoming true).parameters "upcoming" = some "true") ∧
    (∀ (api : HolidayAPI) (country : String) (year d : Int),
      lookupParam ((HolidaysRequest.new api country year).day d).parameters "day" =
        some (i32_to_string d) ∧
      lookupParam ((HolidaysRequest.new api country year).day d).parameters "month" =
        none) := by
  constructor
  · intro h
    constructor
    · rw [show ((h.previous true).upcoming true).parameters =
          insertParam "upcoming" "true" (insertParam "previous" "true" h.parameters)
          from rfl]
      rw [lookupParam_insertParam, if_neg (by decide), lookupParam_insertParam,
        if_pos rfl]
    · rw [show ((h.previous true).upcoming true).parameters =
          insertParam "upcoming" "true" (insertParam "previous" "true" h.parameters)
          from rfl]
      rw [lookupParam_insertParam, if_pos rfl]
  · intro api country year d
    constructor
    · rw [show ((HolidaysRequest.new api country year).day d).parameters =
          insertParam "day" (i32_to_string d)
            (insertParam "year" (i32_to_string year) (insertParam "country" country []))
          from rfl]
      rw [lookupParam_insertParam, if_pos rfl]
    · rw [show ((HolidaysRequest.new api country year).day d).parameters =
          insertParam "day" (i32_to_string d)
            (insertParam "year" (i32_to_string year) (insertParam "country" country []))
          from rfl]
      rw [lookupParam_insertParam, if_neg (by decide), lookupParam_insertParam,
        if_neg (by decide), lookupParam_insertParam, if_neg (by decide)]
      rfl

/-! ## Claim C10 -/

/-- Claim C10 (confirmed): `WorkdayRequest::new` binds exactly the
keys `country`, `year` and `days`, with the start date stored under
`year`; `WorkdaysRequest::new` binds exactly `country`, `year` and
`end`, with the start date under `year` and the end date under `end`;
neither ever produces a `start` key. -/
theorem claim_C10 :
    (∀ (api : HolidayAPI) (country start : String) (days : Int) (k : String),
      lookupParam (WorkdayRequest.new api country start days).parameters k =
        if k = "days" then some (i32_to_string days)
        else if k = "year" then some start
        else if k = "country" then some country
        else none) ∧
    (∀ (api : HolidayAPI) (country start days : String) (k : String),
      lookupParam (WorkdaysRequest.new api country start days).parameters k =
        if k = "end" then some days
        else if k = "year" then some start
        else if k = "country" then some country
        else none) ∧
    (∀ (api : HolidayAPI) (country start : String) (days : Int),
      lookupParam (WorkdayRequest.new api country start days).parameters "start" = none) ∧
    (∀ (api : HolidayAPI) (country start days : String),
      lookupParam (WorkdaysRequest.new api country start days).parameters "start" = none) := by
  have hday : ∀ (api : HolidayAPI) (country start : String) (days : Int) (k : String),
      lookupParam (WorkdayRequest.new api country start days).parameters k =
        if k = "days" then some (i32_to_string days)
        else if k = "year" then some start
        else if k = "country" then some country
        else none := by
    intro api country start days k
    rw [show (WorkdayRequest.new api country start days).parameters =
        insertParam "days" (i32_to_string days)
          (insertParam "year" start (insertParam "country" country [])) from rfl]
    rw [lookupParam_insertParam, lookupParam_insertParam, lookupParam_insertParam]
    rfl
  have hdays : ∀ (api : HolidayAPI) (country start days : String) (k : String),
      lookupParam (WorkdaysRequest.new api country start days).parameters k =
        if k = "end" then some days
        else if k = "year" then some start
        else if k = "country" then some country
        else none := by
    intro api country start days k
    rw [show (WorkdaysRequest.new api country start days).parameters =
        insertParam "end" days
          (insertParam "year" start (insertParam "country" country [])) from rfl]
    rw [lookupParam_insertParam, lookupParam_insertParam, lookupParam_insertParam]
    rfl
  refine ⟨hday, hdays, ?_, ?_⟩
  · intro api country start days
    rw [hday api country start days "start"]
    rfl
  · intro api country start days
    rw [hdays api country start days "start"]
    rfl
